import Mathlib

/-!
# Surface mesh viewer (GLFW): render setup and frame draw

A shallow embedding of `examples/surface_mesh_viewer_glfw/surface_mesh_viewer_glfw.cpp`.

* The viewer's global status (`mesh`, `triangles`) is an explicit record that `init`,
  `display` and `main` receive and return.
* Calls into OpenGL and into the shader loader are recorded, in program order, as a list
  of `GLCall` values; every argument is recorded with the value of the argument expression
  in the source.  What the device hands back (`load_shaders`, `glGetUniformLocation`,
  `glGen*`) is read from an `Env` record.
* `assert` is the active (non-`NDEBUG`) macro: a failed assertion aborts the process.
* A `float` is kept as the rational number it denotes.  The rounded single-precision matrix
  product and `Eigen::perspective` are not computed here: they are fields of `Env`.  The
  look-at matrix is computed, all its intermediate values being exact for the fixed camera.
  Vertex data is opaque to the viewer and is kept as 32-bit words.
-/

namespace SurfaceMeshViewer

/-! ## Machine integers and bytes -/

/-- Conversion of a signed value to `unsigned int` / `GLuint` (32 bits, modular). -/
def toUInt (i : Int) : Nat := (i % 4294967296).toNat

/-- Reading a 32-bit unsigned value as a signed `GLint`. -/
def toGLint (n : Nat) : Int := if n < 2147483648 then (n : Int) else (n : Int) - 4294967296

/-- Conversion of a `size_t` to the 32-bit signed `GLsizei`: the low 32 bits, read as signed. -/
def toGLsizei (n : Nat) : Int := toGLint (n % 4294967296)

/-- The four bytes of a 32-bit word in memory order (least significant first). -/
def u32Bytes (n : Nat) : List Nat :=
  [n % 256, n / 256 % 256, n / 65536 % 256, n / 16777216 % 256]

/-- Reading a byte string back as 32-bit words; a trailing partial word is dropped. -/
def u32OfBytes : List Nat → List Nat
  | b0 :: b1 :: b2 :: b3 :: rest =>
      (b0 + 256 * b1 + 65536 * b2 + 16777216 * b3) :: u32OfBytes rest
  | _ => []

/-- The value of `sizeof(unsigned int)`. -/
def sizeof_unsigned_int : Nat := 4

/-- The value of `sizeof(Vec3f)`: three packed `float`s. -/
def sizeof_Vec3f : Nat := 12

/-- The value of `EXIT_FAILURE`. -/
def EXIT_FAILURE : Nat := 1

/-- The value of `EXIT_SUCCESS`. -/
def EXIT_SUCCESS : Nat := 0

/-! ## The mesh -/

/-- Modelled from the spec: `Vec3f` (`Point`, `Normal`) of the absent `Surface_mesh.h`, three
`float`s, each kept as its 32-bit word. -/
structure Vec3f where
  x : Nat
  y : Nat
  z : Nat
deriving DecidableEq, Repr

/-- The twelve bytes of a `Vec3f` in memory order. -/
def Vec3f.bytes (v : Vec3f) : List Nat := u32Bytes v.x ++ u32Bytes v.y ++ u32Bytes v.z

/-- Modelled from the spec: the vertex handle of the absent `Surface_mesh.h`; `idx()` is an
`int`. -/
structure Vertex where
  idx : Int
deriving DecidableEq, Repr

/-- Modelled from the spec: the mesh of the absent `Surface_mesh.h`, reduced to what the viewer
reads: the named per-vertex property arrays and, for every face in the enumeration order of
`mesh.faces()`, its vertex loop in the order of `mesh.vertices(f)`. -/
structure Surface_mesh where
  vprops : List (String × List Vec3f)
  faces : List (List Vertex)
deriving DecidableEq, Repr

/-- Modelled from the spec: the lookup `mesh.get_vertex_property<T>(name)` of the absent
`Surface_mesh.h`: the property array, or nothing when the mesh has no property of that name (the
returned handle then converts to `false`). -/
def Surface_mesh.get_vertex_property (m : Surface_mesh) (name : String) :
    Option (List Vec3f) :=
  List.lookup name m.vprops

/-- Modelled from the spec: the count `mesh.vertices_size()` of the absent `Surface_mesh.h`, the
length of the vertex property arrays. -/
def Surface_mesh.vertices_size (m : Surface_mesh) : Nat :=
  ((m.get_vertex_property "v:point").getD []).length

/-- Every face loop has exactly three vertices. -/
def Surface_mesh.is_triangle_mesh (m : Surface_mesh) : Prop :=
  ∀ f ∈ m.faces, f.length = 3

/-- Every handle met in a face loop is a valid one: a non-negative `int`. -/
def Surface_mesh.valid_loops (m : Surface_mesh) : Prop :=
  ∀ f ∈ m.faces, ∀ v ∈ f, 0 ≤ v.idx ∧ v.idx < 2147483648

/-- Viewer global status. -/
structure Status where
  mesh : Surface_mesh
  triangles : List Nat
deriving DecidableEq, Repr

/-! ## Matrices -/

/-- A `mat4` (`Eigen::Matrix4f`); each entry is the rational a finite `float` denotes. -/
abbrev Mat4 := Matrix (Fin 4) (Fin 4) ℚ

/-- A `vec3`. -/
abbrev Vec3 := Fin 3 → ℚ

/-- A homogeneous point. -/
abbrev Vec4 := Fin 4 → ℚ

namespace Eigen

/-- Modelled from the spec: `Eigen::scale` of the absent `EigenOpenGLSupport3.h`, the standard
homogeneous scaling matrix. -/
def scale (sx sy sz : ℚ) : Mat4 :=
  !![sx, 0, 0, 0; 0, sy, 0, 0; 0, 0, sz, 0; 0, 0, 0, 1]

/-- Modelled from the spec: `Eigen::translate` of the absent `EigenOpenGLSupport3.h`, the
standard homogeneous translation matrix. -/
def translate (tx ty tz : ℚ) : Mat4 :=
  !![1, 0, 0, tx; 0, 1, 0, ty; 0, 0, 1, tz; 0, 0, 0, 1]

/-- Modelled from the spec: the dot product of two `vec3`, used by the look-at construction. -/
def dot (a b : Vec3) : ℚ := a 0 * b 0 + a 1 * b 1 + a 2 * b 2

/-- Modelled from the spec: the cross product of two `vec3`, used by the look-at
construction. -/
def cross (a b : Vec3) : Vec3 :=
  ![a 1 * b 2 - a 2 * b 1, a 2 * b 0 - a 0 * b 2, a 0 * b 1 - a 1 * b 0]

/-- The largest `k` with `k * k ≤ n`. -/
def isqrt (n : Nat) : Nat :=
  (List.range (n + 1)).foldl (fun r k => if k * k ≤ n then k else r) 0

/-- Modelled from the spec: a square root on `ℚ` that is exact on squares of rationals (the only
arguments the fixed camera gives it) and rounds numerator and denominator down elsewhere. -/
def sqrt (q : ℚ) : ℚ := (isqrt q.num.toNat : ℚ) / (isqrt q.den : ℚ)

/-- Modelled from the spec: the vector `v.normalized()`. -/
def normalized (v : Vec3) : Vec3 := fun i => v i / sqrt (dot v v)

/-- Modelled from the spec: the look-at matrix built from a unit forward direction `f`, the eye
and the up vector: side `s = normalize(f × normalize(up))`, recomputed up `u = s × f`, rows
`s`, `u`, `-f` and the translation that brings the eye to the origin. -/
def lookAlong (eye f up : Vec3) : Mat4 :=
  let u := normalized up
  let s := normalized (cross f u)
  let u := cross s f
  !![s 0, s 1, s 2, -dot s eye;
     u 0, u 1, u 2, -dot u eye;
     -f 0, -f 1, -f 2, dot f eye;
     0, 0, 0, 1]

/-- Modelled from the spec: `Eigen::lookAt` of the absent `EigenOpenGLSupport3.h`, with the
second parameter read as a target point: forward is `normalize(center - eye)`. -/
def lookAt (eye center up : Vec3) : Mat4 :=
  lookAlong eye (normalized (fun i => center i - eye i)) up

/-- Modelled from the spec: the other reading of the second parameter of a look-at function, as
a view direction: forward is `normalize(dir)`. -/
def lookAtDirection (eye dir up : Vec3) : Mat4 :=
  lookAlong eye (normalized dir) up

end Eigen

/-! ## OpenGL constants -/

/-- The enum `GL_DEPTH_TEST`. -/
def GL_DEPTH_TEST : Nat := 0x0B71
/-- The enum `GL_ARRAY_BUFFER`. -/
def GL_ARRAY_BUFFER : Nat := 0x8892
/-- The enum `GL_ELEMENT_ARRAY_BUFFER`. -/
def GL_ELEMENT_ARRAY_BUFFER : Nat := 0x8893
/-- The enum `GL_STATIC_DRAW`. -/
def GL_STATIC_DRAW : Nat := 0x88E4
/-- The enum `GL_FLOAT`. -/
def GL_FLOAT : Nat := 0x1406
/-- The enum `GL_UNSIGNED_INT`. -/
def GL_UNSIGNED_INT : Nat := 0x1405
/-- The enum `GL_TRIANGLES`. -/
def GL_TRIANGLES : Nat := 0x0004
/-- The bit `GL_COLOR_BUFFER_BIT`. -/
def GL_COLOR_BUFFER_BIT : Nat := 0x4000
/-- The bit `GL_DEPTH_BUFFER_BIT`. -/
def GL_DEPTH_BUFFER_BIT : Nat := 0x0100
/-- Modelled from the spec: the macro `NOT_NORMALIZED` of the absent `simple_glfw_window.h`
(`GL_FALSE`). -/
def NOT_NORMALIZED : Nat := 0
/-- Modelled from the spec: the macro `ZERO_STRIDE` of the absent `simple_glfw_window.h`. -/
def ZERO_STRIDE : Nat := 0
/-- Modelled from the spec: the macro `ZERO_BUFFER_OFFSET` of the absent
`simple_glfw_window.h`. -/
def ZERO_BUFFER_OFFSET : Nat := 0

/-! ## Calls issued by the viewer -/

/-- The host arrays whose address the viewer passes to the device. -/
inductive HostPtr where
  | vpoints_data
  | vnormals_data
  | triangles_0
deriving DecidableEq, Repr

/-- One call into OpenGL or the shader loader, with its arguments. -/
inductive GLCall where
  | glClearColor (r g b a : ℚ)
  | glEnable (cap : Nat)
  | load_shaders (vshader fshader : String)
  | glUseProgram (program : Nat)
  | glGetUniformLocation (program : Nat) (name : String)
  | glUniform (location : Nat) (m : Mat4)
  | glGenVertexArrays (n : Nat)
  | glBindVertexArray (array : Nat)
  | glGenBuffers (n : Nat)
  | glBindBuffer (target buffer : Nat)
  | glBufferData (target size : Nat) (data : HostPtr) (usage : Nat)
  | glEnableVertexAttribArray (index : Nat)
  | glVertexAttribPointer (index size type normalized stride offset : Nat)
  | glClear (mask : Nat)
  | glDrawElements (mode : Nat) (count : Int) (type offset : Nat)

/-- What the collaborators hand back during `init`, and the one compile-time size the source
takes from the absent `Surface_mesh.h`. -/
structure Env where
  /-- the handle returned by `load_shaders` -/
  programID : Nat
  /-- the `GLint` returned by `glGetUniformLocation` -/
  uniformLocation : Int
  /-- the name written by `glGenVertexArrays` -/
  VertexArrayID : Nat
  /-- the name written by the first `glGenBuffers` -/
  vertexbuffer : Nat
  /-- the name written by the second `glGenBuffers` -/
  normalbuffer : Nat
  /-- the name written by the third `glGenBuffers` -/
  trianglebuffer : Nat
  /-- the function `Eigen::perspective` of the absent `EigenOpenGLSupport3.h` -/
  perspective : ℚ → ℚ → ℚ → ℚ → Mat4
  /-- the rounded single-precision product `operator*` of two `Matrix4f` -/
  mul : Mat4 → Mat4 → Mat4
  /-- the value of `sizeof(mesh.n_vertices())`: the size of the counter type -/
  sizeof_n_vertices : Nat

/-- How a run ends. -/
inductive Outcome where
  | returned
  | exited (code : Nat)
  | aborted
deriving DecidableEq, Repr

/-- The result of running a piece of the viewer: the status left, the calls issued, the way it
ended. -/
structure Run where
  status : Status
  calls : List GLCall
  outcome : Outcome

/-! ## Device state touched by the buffer calls -/

/-- The data store of a buffer object: its bytes, its usage hint and the host array it was
filled from. -/
structure BufferObject where
  data : List Nat
  usage : Nat
  source : HostPtr
deriving DecidableEq, Repr

/-- One generic vertex attribute: the array and the buffer it reads from. -/
structure VertexAttrib where
  enabled : Bool
  buffer : Nat
  size : Nat
  type : Nat
  normalized : Nat
  stride : Nat
  offset : Nat
deriving DecidableEq, Repr

/-- The buffer-binding state of the device. -/
structure Device where
  array_buffer : Nat
  element_array_buffer : Nat
  buffers : Nat → Option BufferObject
  attribs : Nat → VertexAttrib

/-- The effect of one call on the buffer-binding state, after the OpenGL reference.
`glBufferData` copies `size` bytes
from the host array into the buffer bound to the target (where the host array is shorter than
`size` the C++ reads past its end; here the copy stops at the end).  `glVertexAttribPointer`
captures the buffer bound to `GL_ARRAY_BUFFER`.  The other calls leave this state alone. -/
def Device.exec (mem : HostPtr → List Nat) (d : Device) : GLCall → Device
  | GLCall.glBindBuffer target buffer =>
      if target = GL_ARRAY_BUFFER then { d with array_buffer := buffer }
      else if target = GL_ELEMENT_ARRAY_BUFFER then { d with element_array_buffer := buffer }
      else d
  | GLCall.glBufferData target size data usage =>
      if target = GL_ARRAY_BUFFER then
        { d with buffers := Function.update d.buffers d.array_buffer
                      (some ⟨(mem data).take size, usage, data⟩) }
      else if target = GL_ELEMENT_ARRAY_BUFFER then
        { d with buffers := Function.update d.buffers d.element_array_buffer
                      (some ⟨(mem data).take size, usage, data⟩) }
      else d
  | GLCall.glEnableVertexAttribArray index =>
      { d with attribs := Function.update d.attribs index
                      { (d.attribs index) with enabled := true } }
  | GLCall.glVertexAttribPointer index size type normalized stride offset =>
      { d with attribs := Function.update d.attribs index
                      ⟨(d.attribs index).enabled, d.array_buffer, size, type, normalized,
                        stride, offset⟩ }
  | _ => d

/-- The device after a sequence of calls. -/
def Device.run (mem : HostPtr → List Nat) (d : Device) (calls : List GLCall) : Device :=
  calls.foldl (Device.exec mem) d

/-- The bytes found at each host address the viewer hands to the device. -/
def hostBytes (s : Status) : HostPtr → List Nat
  | HostPtr.vpoints_data =>
      (((s.mesh.get_vertex_property "v:point").getD []).map Vec3f.bytes).flatten
  | HostPtr.vnormals_data =>
      (((s.mesh.get_vertex_property "v:normal").getD []).map Vec3f.bytes).flatten
  | HostPtr.triangles_0 => (s.triangles.map u32Bytes).flatten

/-! ## `init` -/

/-- The inner loop `for(auto v: mesh.vertices(f)) triangles.push_back(v.idx());`. -/
def push_loop (triangles : List Nat) (f : List Vertex) : List Nat :=
  f.foldl (fun t v => t ++ [toUInt v.idx]) triangles

/-- The block `triangles.clear(); for(auto f: mesh.faces()) ...`. -/
def fill_triangles (m : Surface_mesh) : List Nat :=
  m.faces.foldl push_loop []

/-- The vector `cam_pos`. -/
def cam_pos : Vec3 := ![0, 0, 5]
/-- The vector `cam_look`. -/
def cam_look : Vec3 := ![0, 0, -1]
/-- The vector `cam_up`. -/
def cam_up : Vec3 := ![0, 1, 0]

/-- The `float` value of `4.0f/3.0f`: the single-precision number nearest to 4/3. -/
def float_4_div_3 : ℚ := 11184811 / 8388608

/-- The `float` value of the literal `0.1f`: the single-precision number nearest to 1/10. -/
def float_0_1 : ℚ := 13421773 / 134217728

/-- The matrix `projection`. -/
def projection (env : Env) : Mat4 := env.perspective 45 float_4_div_3 float_0_1 10

/-- The matrix `view`. -/
def view : Mat4 := Eigen.lookAt cam_pos cam_look cam_up

/-- The matrix `model`. -/
def model (env : Env) : Mat4 :=
  env.mul (Eigen.scale (1 / 2) (1 / 2) (1 / 2)) (Eigen.translate (-1 / 2) (-1 / 2) 0)

/-- The matrix `mvp`. -/
def mvp (env : Env) : Mat4 := env.mul (env.mul (projection env) view) (model env)

/-- The attribute slot `VPOS`. -/
def VPOS : Nat := 0
/-- The attribute slot `VNOR`. -/
def VNOR : Nat := 1

/-- The calls of the section OPENGL GLOBALS, up to and including the shader load. -/
def init_globals : List GLCall :=
  [GLCall.glClearColor 1 1 1 0,
   GLCall.glEnable GL_DEPTH_TEST,
   GLCall.load_shaders "vshader.glsl" "fshader.glsl"]

/-- The calls from `glUseProgram` to the end of the section CAMERA. -/
def init_camera (env : Env) : List GLCall :=
  [GLCall.glUseProgram env.programID,
   GLCall.glGetUniformLocation env.programID "MVP",
   GLCall.glUniform (toUInt env.uniformLocation) (mvp env)]

/-- The calls of the section VARRAY. -/
def init_varray (env : Env) : List GLCall :=
  [GLCall.glGenVertexArrays 1,
   GLCall.glBindVertexArray env.VertexArrayID]

/-- The calls of the section BUFFERS. -/
def init_buffers (env : Env) (triangles : List Nat) : List GLCall :=
  [GLCall.glGenBuffers 1,
   GLCall.glBindBuffer GL_ARRAY_BUFFER env.vertexbuffer,
   GLCall.glBufferData GL_ARRAY_BUFFER (env.sizeof_n_vertices * sizeof_Vec3f)
     HostPtr.vpoints_data GL_STATIC_DRAW,
   GLCall.glGenBuffers 1,
   GLCall.glBindBuffer GL_ARRAY_BUFFER env.normalbuffer,
   GLCall.glBufferData GL_ARRAY_BUFFER (env.sizeof_n_vertices * sizeof_Vec3f)
     HostPtr.vnormals_data GL_STATIC_DRAW,
   GLCall.glGenBuffers 1,
   GLCall.glBindBuffer GL_ELEMENT_ARRAY_BUFFER env.trianglebuffer,
   GLCall.glBufferData GL_ELEMENT_ARRAY_BUFFER (triangles.length * sizeof_unsigned_int)
     HostPtr.triangles_0 GL_STATIC_DRAW]

/-- The calls of the sections SHADER ATTRIBUTES and ENABLE BUFFER. -/
def init_attributes (env : Env) : List GLCall :=
  [GLCall.glEnableVertexAttribArray VPOS,
   GLCall.glBindBuffer GL_ARRAY_BUFFER env.vertexbuffer,
   GLCall.glVertexAttribPointer VPOS 3 GL_FLOAT NOT_NORMALIZED ZERO_STRIDE ZERO_BUFFER_OFFSET,
   GLCall.glEnableVertexAttribArray VNOR,
   GLCall.glBindBuffer GL_ARRAY_BUFFER env.normalbuffer,
   GLCall.glVertexAttribPointer VNOR 3 GL_FLOAT NOT_NORMALIZED ZERO_STRIDE ZERO_BUFFER_OFFSET,
   GLCall.glBindBuffer GL_ELEMENT_ARRAY_BUFFER env.trianglebuffer]

/-- OpenGL initialization. -/
def init (env : Env) (s : Status) : Run :=
  if (s.mesh.get_vertex_property "v:point").isNone then ⟨s, [], Outcome.aborted⟩
  else if (s.mesh.get_vertex_property "v:normal").isNone then ⟨s, [], Outcome.aborted⟩
  else
    let s1 : Status := { s with triangles := fill_triangles s.mesh }
    if env.programID = 0 then ⟨s1, init_globals, Outcome.exited EXIT_FAILURE⟩
    else
      ⟨s1,
       init_globals ++ init_camera env ++ init_varray env ++ init_buffers env s1.triangles
         ++ init_attributes env,
       Outcome.returned⟩

/-! ## `display` -/

/-- OpenGL render loop body.  The count `triangles.size()`, a `size_t`, is narrowed to the
`GLsizei` parameter of `glDrawElements`. -/
def display (s : Status) : Run :=
  ⟨s,
   [GLCall.glClear (GL_COLOR_BUFFER_BIT ||| GL_DEPTH_BUFFER_BIT),
    GLCall.glDrawElements GL_TRIANGLES (toGLsizei s.triangles.length) GL_UNSIGNED_INT
      ZERO_BUFFER_OFFSET],
   Outcome.returned⟩

/-- The status and the calls of `n` successive invocations of `display`. -/
def display_times : Nat → Status → Status × List GLCall
  | 0, s => (s, [])
  | n + 1, s =>
      let r := display s
      let rest := display_times n r.status
      (rest.1, r.calls ++ rest.2)

/-! ## `main` -/

/-- The mesh operations of the absent `Surface_mesh.h` that `main` calls, taken as
parameters. -/
structure MeshLib where
  read : Surface_mesh → String → Surface_mesh
  triangulate : Surface_mesh → Surface_mesh
  update_vertex_normals : Surface_mesh → Surface_mesh

/-- The two functions `main` hands to the window as callbacks. -/
inductive Callback where
  | init
  | display
deriving DecidableEq, Repr

/-- What `main` does that is visible outside it: calls to the mesh, output, the window. -/
inductive Event where
  | mesh_read (path : String)
  | mesh_triangulate
  | mesh_update_vertex_normals
  | cout_input (path : String) (vertices_size : Nat)
  | cout_bbox
  | simple_glfw_window (title : String) (width height : Nat) (on_init on_frame : Callback)
deriving DecidableEq, Repr

/-- The frames of the event loop: `on_frame` once per displayed frame, for `frames` frames,
stopping early when a frame ends the process. -/
def run_frames (on_frame : Status → Run) : Nat → Status → Run
  | 0, s => ⟨s, [], Outcome.returned⟩
  | n + 1, s =>
      let r := on_frame s
      match r.outcome with
      | Outcome.returned =>
          let rest := run_frames on_frame n r.status
          ⟨rest.status, r.calls ++ rest.calls, rest.outcome⟩
      | o => ⟨r.status, r.calls, o⟩

/-- Modelled from the spec: `simple_glfw_window` of the absent `simple_glfw_window.h`.  It runs
`on_init` once, then `on_frame` once per displayed frame, and returns when the window is closed,
here after `frames` frames; a callback that ends the process ends the window with it.  The
calls the window makes on its own account are left out. -/
def simple_glfw_window (on_init on_frame : Status → Run) (frames : Nat) (s : Status) : Run :=
  let r := on_init s
  match r.outcome with
  | Outcome.returned =>
      let l := run_frames on_frame frames r.status
      ⟨l.status, r.calls ++ l.calls, l.outcome⟩
  | o => ⟨r.status, r.calls, o⟩

/-- The result of `main`: the status left, the events in program order, the OpenGL calls made by
the callbacks inside the window, the way it ended. -/
structure MainRun where
  status : Status
  events : List Event
  calls : List GLCall
  outcome : Outcome

/-- The status after the three mesh calls of `main`: `mesh.read(argv[1])`, `mesh.triangulate()`,
`mesh.update_vertex_normals()`, in that order. -/
def load_mesh (lib : MeshLib) (path : String) (s : Status) : Status :=
  { s with mesh := lib.update_vertex_normals (lib.triangulate (lib.read s.mesh path)) }

/-- Entry point.  `frames` is the number of frames displayed before the window is closed.
Returning `EXIT_SUCCESS` from `main` ends the process with that code. -/
def main (lib : MeshLib) (env : Env) (frames : Nat) (argc : Int) (argv : List String)
    (s : Status) : MainRun :=
  if argc = 2 then
    let path := argv.getD 1 ""
    let loaded := load_mesh lib path s
    let w := simple_glfw_window (init env) display frames loaded
    ⟨w.status,
     [Event.mesh_read path,
      Event.mesh_triangulate,
      Event.mesh_update_vertex_normals,
      Event.cout_input path loaded.mesh.vertices_size,
      Event.cout_bbox,
      Event.simple_glfw_window "mesh viewer" 640 480 Callback.init Callback.display],
     w.calls,
     match w.outcome with
     | Outcome.returned => Outcome.exited EXIT_SUCCESS
     | o => o⟩
  else ⟨s, [], [], Outcome.aborted⟩

/-! ## Reading a call sequence -/

/-- The call is a `glUniform`. -/
def GLCall.is_glUniform : GLCall → Bool
  | GLCall.glUniform _ _ => true
  | _ => false

/-- The call is a `glUseProgram`. -/
def GLCall.is_glUseProgram : GLCall → Bool
  | GLCall.glUseProgram _ => true
  | _ => false

/-- The call is a `glGenBuffers`. -/
def GLCall.is_glGenBuffers : GLCall → Bool
  | GLCall.glGenBuffers _ => true
  | _ => false

/-- The call is a `glBufferData`. -/
def GLCall.is_glBufferData : GLCall → Bool
  | GLCall.glBufferData _ _ _ _ => true
  | _ => false

/-- The arguments of a `glBufferData` call to the given target. -/
def GLCall.upload_to (target : Nat) : GLCall → Option (Nat × HostPtr × Nat)
  | GLCall.glBufferData t size data usage =>
      if t = target then some (size, data, usage) else none
  | _ => none

/-- The uploads (byte count, host array, usage hint) a call sequence makes to a target, in
order. -/
def uploads_to (target : Nat) (calls : List GLCall) : List (Nat × HostPtr × Nat) :=
  calls.filterMap (GLCall.upload_to target)

/-- A device on which nothing is bound, no buffer has a data store and every attribute is in
its initial state. -/
def Device.fresh : Device :=
  { array_buffer := 0, element_array_buffer := 0, buffers := fun _ => none,
    attribs := fun _ => ⟨false, 0, 4, GL_FLOAT, 0, 0, 0⟩ }

/-! ## Sample inputs -/

/-- A device environment with a valid program, a found uniform and three distinct buffers. -/
def sampleEnv : Env :=
  { programID := 3, uniformLocation := 0, VertexArrayID := 1, vertexbuffer := 1,
    normalbuffer := 2, trianglebuffer := 3, perspective := fun _ _ _ _ => 1,
    mul := fun a b => a * b, sizeof_n_vertices := 4 }

/-- The sample environment with a failed shader loader. -/
def failedEnv : Env := { sampleEnv with programID := 0 }

/-- The sample environment with the uniform lookup returning the invalid location. -/
def notFoundEnv : Env := { sampleEnv with uniformLocation := -1 }

/-- Mesh operations that leave the mesh as it is. -/
def sampleLib : MeshLib :=
  { read := fun m _ => m, triangulate := fun m => m, update_vertex_normals := fun m => m }

/-- Five vertices (positions and normals) and two triangles over them. -/
def sampleMesh : Surface_mesh :=
  { vprops :=
      [("v:point", [⟨0, 0, 0⟩, ⟨1065353216, 0, 0⟩, ⟨0, 1065353216, 0⟩,
                    ⟨1065353216, 1065353216, 0⟩, ⟨0, 0, 1065353216⟩]),
       ("v:normal", [⟨0, 0, 1065353216⟩, ⟨0, 0, 1065353216⟩, ⟨0, 0, 1065353216⟩,
                     ⟨0, 0, 1065353216⟩, ⟨0, 0, 1065353216⟩])],
    faces := [[⟨0⟩, ⟨1⟩, ⟨2⟩], [⟨2⟩, ⟨1⟩, ⟨3⟩]] }

/-- The sample mesh with a stale triangle sequence left in the global. -/
def sampleStatus : Status := { mesh := sampleMesh, triangles := [7, 7] }

/-- Face `i` of a triangle strip over the vertices `i`, `i + 1`, `i + 2`, with the winding
alternating so that neighbours agree. -/
def stripFace (i : Nat) : List Vertex :=
  if i % 2 = 0 then [⟨i⟩, ⟨i + 1⟩, ⟨i + 2⟩] else [⟨i + 1⟩, ⟨i⟩, ⟨i + 2⟩]

/-- A triangle strip with `F` faces over `F + 2` vertices. -/
def stripMesh (F : Nat) : Surface_mesh :=
  { vprops :=
      [("v:point", (List.range (F + 2)).map (fun i => ⟨i, 0, 0⟩)),
       ("v:normal", List.replicate (F + 2) ⟨0, 0, 1065353216⟩)],
    faces := (List.range F).map stripFace }

/-- The strip with `F` faces and an empty triangle sequence. -/
def stripStatus (F : Nat) : Status := { mesh := stripMesh F, triangles := [] }

/-! ## Lemmas on the flattening loop -/

theorem push_loop_eq (t : List Nat) (f : List Vertex) :
    push_loop t f = t ++ f.map (fun v => toUInt v.idx) := by
  unfold push_loop
  induction f generalizing t with
  | nil => simp
  | cons v f ih => simp [List.foldl_cons, ih]

theorem foldl_push_loop_eq (t : List Nat) (faces : List (List Vertex)) :
    faces.foldl push_loop t
      = t ++ (faces.map (fun f => f.map (fun v => toUInt v.idx))).flatten := by
  induction faces generalizing t with
  | nil => simp
  | cons f faces ih => simp [List.foldl_cons, ih, push_loop_eq]

theorem fill_triangles_eq (m : Surface_mesh) :
    fill_triangles m = (m.faces.map (fun f => f.map (fun v => toUInt v.idx))).flatten := by
  simp [fill_triangles, foldl_push_loop_eq]

theorem flatten_length_of_triples {α : Type} (L : List (List α))
    (h : ∀ l ∈ L, l.length = 3) : L.flatten.length = 3 * L.length := by
  induction L with
  | nil => simp
  | cons l L ih =>
      have h1 : l.length = 3 := h l (by simp)
      have h2 : L.flatten.length = 3 * L.length := ih (fun x hx => h x (by simp [hx]))
      simp [h1, h2]
      omega

theorem flatten_slice_of_triples {α : Type} (L : List (List α))
    (h : ∀ l ∈ L, l.length = 3) (i : Nat) (l : List α) (hl : L[i]? = some l) :
    (L.flatten.drop (3 * i)).take 3 = l := by
  induction L generalizing i with
  | nil => simp at hl
  | cons a L ih =>
      have ha : a.length = 3 := h a (by simp)
      cases i with
      | zero =>
          simp at hl
          subst hl
          simp [List.take_append_eq_append_take, ha]
      | succ j =>
          simp at hl
          have hd : 3 * (j + 1) = a.length + 3 * j := by omega
          rw [List.flatten_cons, hd, List.drop_append]
          exact ih (fun x hx => h x (by simp [hx])) j hl

theorem fill_triangles_length (m : Surface_mesh) (h : m.is_triangle_mesh) :
    (fill_triangles m).length = 3 * m.faces.length := by
  rw [fill_triangles_eq]
  have := flatten_length_of_triples (m.faces.map (fun f => f.map (fun v => toUInt v.idx)))
    (by
      intro l hl
      simp only [List.mem_map] at hl
      obtain ⟨f, hf, rfl⟩ := hl
      simpa using h f hf)
  simpa using this

theorem toUInt_of_valid (i : Int) (h0 : 0 ≤ i) (h1 : i < 2147483648) :
    ((toUInt i : Nat) : Int) = i := by
  unfold toUInt
  have : i % 4294967296 = i := Int.emod_eq_of_lt h0 (by omega)
  rw [this]
  exact Int.toNat_of_nonneg h0

theorem toUInt_lt (i : Int) : toUInt i < 4294967296 := by
  unfold toUInt
  have h1 : 0 ≤ i % 4294967296 := Int.emod_nonneg _ (by decide)
  have h2 : i % 4294967296 < 4294967296 := Int.emod_lt_of_pos _ (by decide)
  omega

theorem fill_triangles_lt (m : Surface_mesh) : ∀ n ∈ fill_triangles m, n < 4294967296 := by
  intro n hn
  rw [fill_triangles_eq] at hn
  simp only [List.mem_flatten, List.mem_map] at hn
  obtain ⟨l, ⟨f, _, rfl⟩, hn⟩ := hn
  simp only [List.mem_map] at hn
  obtain ⟨v, _, rfl⟩ := hn
  exact toUInt_lt v.idx

/-! ## Lemmas on `init` -/

theorem init_of_properties (env : Env) (s : Status)
    (hp : (s.mesh.get_vertex_property "v:point").isSome = true)
    (hn : (s.mesh.get_vertex_property "v:normal").isSome = true) :
    init env s =
      if env.programID = 0 then
        ⟨{ s with triangles := fill_triangles s.mesh }, init_globals,
          Outcome.exited EXIT_FAILURE⟩
      else
        ⟨{ s with triangles := fill_triangles s.mesh },
          init_globals ++ init_camera env ++ init_varray env
            ++ init_buffers env (fill_triangles s.mesh) ++ init_attributes env,
          Outcome.returned⟩ := by
  have hp1 : (s.mesh.get_vertex_property "v:point").isNone = false := by
    cases h : s.mesh.get_vertex_property "v:point" <;> simp_all
  have hn1 : (s.mesh.get_vertex_property "v:normal").isNone = false := by
    cases h : s.mesh.get_vertex_property "v:normal" <;> simp_all
  simp [init, hp1, hn1]

theorem init_triangles (env : Env) (s : Status)
    (hp : (s.mesh.get_vertex_property "v:point").isSome = true)
    (hn : (s.mesh.get_vertex_property "v:normal").isSome = true) :
    (init env s).status.triangles = fill_triangles s.mesh := by
  rw [init_of_properties env s hp hn]
  split <;> rfl

/-! ## C1: the flattened triangle sequence -/

/-- C1: for a triangulated mesh with `F` faces whose loops hold valid handles, and whatever the
global triangle sequence held before, after `init` the sequence has length `3 * F` and, for every
face `f` at position `i` of the face enumeration, its elements at positions `3i, 3i+1, 3i+2` are
the vertex indices of `f` in loop order. -/
theorem init_flattens_faces (env : Env) (s : Status) (F : Nat)
    (hp : (s.mesh.get_vertex_property "v:point").isSome = true)
    (hn : (s.mesh.get_vertex_property "v:normal").isSome = true)
    (htri : s.mesh.is_triangle_mesh) (hval : s.mesh.valid_loops)
    (hF : s.mesh.faces.length = F) :
    (init env s).status.triangles.length = 3 * F ∧
    ∀ (i : Nat) (f : List Vertex), s.mesh.faces[i]? = some f →
      (((init env s).status.triangles.drop (3 * i)).take 3).map Int.ofNat
        = f.map Vertex.idx := by
  rw [init_triangles env s hp hn]
  refine ⟨by rw [fill_triangles_length s.mesh htri, hF], ?_⟩
  intro i f hf
  have hmem : f ∈ s.mesh.faces := List.getElem?_mem hf
  have hslice := flatten_slice_of_triples
    (s.mesh.faces.map (fun f => f.map (fun v => toUInt v.idx)))
    (by
      intro l hl
      simp only [List.mem_map] at hl
      obtain ⟨g, hg, rfl⟩ := hl
      simpa using htri g hg)
    i (f.map (fun v => toUInt v.idx)) (by simp [hf])
  rw [fill_triangles_eq, hslice, List.map_map]
  apply List.map_congr_left
  intro v hv
  exact toUInt_of_valid v.idx (hval f hmem v hv).1 (hval f hmem v hv).2

/-- C1 at the sample mesh: two faces, a stale sequence `[7, 7]` before the call. -/
theorem init_flattens_faces_witness :
    (init sampleEnv sampleStatus).status.triangles.length = 3 * 2 ∧
    ∀ (i : Nat) (f : List Vertex), sampleStatus.mesh.faces[i]? = some f →
      (((init sampleEnv sampleStatus).status.triangles.drop (3 * i)).take 3).map Int.ofNat
        = f.map Vertex.idx :=
  init_flattens_faces sampleEnv sampleStatus 2 (by decide) (by decide)
    (by unfold Surface_mesh.is_triangle_mesh; decide)
    (by unfold Surface_mesh.valid_loops; decide) (by decide)

/-! ## Lemmas on bytes -/

theorem u32OfBytes_u32Bytes (n : Nat) (rest : List Nat) (h : n < 4294967296) :
    u32OfBytes (u32Bytes n ++ rest) = n :: u32OfBytes rest := by
  simp only [u32Bytes, List.cons_append, List.nil_append, u32OfBytes, List.cons.injEq]
  refine ⟨by omega, rfl⟩

theorem u32OfBytes_flatten (xs : List Nat) (h : ∀ n ∈ xs, n < 4294967296) :
    u32OfBytes (xs.map u32Bytes).flatten = xs := by
  induction xs with
  | nil => simp [u32OfBytes]
  | cons n xs ih =>
      rw [List.map_cons, List.flatten_cons, u32OfBytes_u32Bytes n _ (h n (by simp)),
        ih (fun m hm => h m (by simp [hm]))]

theorem u32Bytes_flatten_length (xs : List Nat) :
    (xs.map u32Bytes).flatten.length = xs.length * 4 := by
  induction xs with
  | nil => simp
  | cons n xs ih =>
      rw [List.map_cons, List.flatten_cons, List.length_append, ih]
      simp [u32Bytes]
      omega

/-! ## Lemmas on the device -/

theorem element_ne_array : GL_ELEMENT_ARRAY_BUFFER ≠ GL_ARRAY_BUFFER := by decide

theorem device_after_init (mem : HostPtr → List Nat) (d : Device) (env : Env)
    (triangles : List Nat) :
    Device.run mem d
        (init_globals ++ init_camera env ++ init_varray env ++ init_buffers env triangles
          ++ init_attributes env)
      = { array_buffer := env.normalbuffer,
          element_array_buffer := env.trianglebuffer,
          buffers :=
            Function.update
              (Function.update
                (Function.update d.buffers env.vertexbuffer
                  (some ⟨(mem HostPtr.vpoints_data).take (env.sizeof_n_vertices * sizeof_Vec3f),
                    GL_STATIC_DRAW, HostPtr.vpoints_data⟩))
                env.normalbuffer
                (some ⟨(mem HostPtr.vnormals_data).take (env.sizeof_n_vertices * sizeof_Vec3f),
                  GL_STATIC_DRAW, HostPtr.vnormals_data⟩))
              env.trianglebuffer
              (some ⟨(mem HostPtr.triangles_0).take (triangles.length * sizeof_unsigned_int),
                GL_STATIC_DRAW, HostPtr.triangles_0⟩),
          attribs :=
            Function.update
              (Function.update d.attribs VPOS
                ⟨true, env.vertexbuffer, 3, GL_FLOAT, NOT_NORMALIZED, ZERO_STRIDE,
                  ZERO_BUFFER_OFFSET⟩)
              VNOR
              ⟨true, env.normalbuffer, 3, GL_FLOAT, NOT_NORMALIZED, ZERO_STRIDE,
                ZERO_BUFFER_OFFSET⟩ } := by
  have hne : VNOR ≠ VPOS := by decide
  simp [Device.run, init_globals, init_camera, init_varray, init_buffers, init_attributes,
    Device.exec, element_ne_array, Function.update_same, Function.update_noteq hne]

theorem display_times_status (n : Nat) (s : Status) : (display_times n s).1 = s := by
  induction n with
  | zero => rfl
  | succ n ih => simpa [display_times, display] using ih

theorem display_times_calls (n : Nat) (s : Status) :
    (display_times n s).2 = (List.replicate n (display s).calls).flatten := by
  induction n with
  | zero => rfl
  | succ n ih =>
      have hs : (display s).status = s := rfl
      simp [display_times, List.replicate_succ, hs, ih]

theorem device_run_display_times (mem : HostPtr → List Nat) (d : Device) (n : Nat)
    (s : Status) : Device.run mem d (display_times n s).2 = d := by
  rw [display_times_calls]
  induction n with
  | zero => rfl
  | succ n ih =>
      rw [List.replicate_succ, List.flatten_cons, Device.run, List.foldl_append]
      have h1 : List.foldl (Device.exec mem) d (display s).calls = d := by
        simp [display, Device.exec]
      rw [h1]
      exact ih

theorem init_uploads_array (env : Env) (s : Status)
    (hp : (s.mesh.get_vertex_property "v:point").isSome = true)
    (hn : (s.mesh.get_vertex_property "v:normal").isSome = true)
    (hprog : env.programID ≠ 0) :
    uploads_to GL_ARRAY_BUFFER (init env s).calls
      = [(env.sizeof_n_vertices * sizeof_Vec3f, HostPtr.vpoints_data, GL_STATIC_DRAW),
         (env.sizeof_n_vertices * sizeof_Vec3f, HostPtr.vnormals_data, GL_STATIC_DRAW)] := by
  rw [init_of_properties env s hp hn, if_neg hprog]
  simp [uploads_to, init_globals, init_camera, init_varray, init_buffers, init_attributes,
    GLCall.upload_to, element_ne_array]

theorem init_uploads_element (env : Env) (s : Status)
    (hp : (s.mesh.get_vertex_property "v:point").isSome = true)
    (hn : (s.mesh.get_vertex_property "v:normal").isSome = true)
    (hprog : env.programID ≠ 0) :
    uploads_to GL_ELEMENT_ARRAY_BUFFER (init env s).calls
      = [((fill_triangles s.mesh).length * sizeof_unsigned_int, HostPtr.triangles_0,
          GL_STATIC_DRAW)] := by
  rw [init_of_properties env s hp hn, if_neg hprog]
  simp [uploads_to, init_globals, init_camera, init_varray, init_buffers, init_attributes,
    GLCall.upload_to, element_ne_array.symm]

theorem init_device (env : Env) (s : Status) (d : Device)
    (hp : (s.mesh.get_vertex_property "v:point").isSome = true)
    (hn : (s.mesh.get_vertex_property "v:normal").isSome = true)
    (hprog : env.programID ≠ 0) :
    Device.run (hostBytes (init env s).status) d (init env s).calls
      = { array_buffer := env.normalbuffer,
          element_array_buffer := env.trianglebuffer,
          buffers :=
            Function.update
              (Function.update
                (Function.update d.buffers env.vertexbuffer
                  (some ⟨(hostBytes (init env s).status HostPtr.vpoints_data).take
                      (env.sizeof_n_vertices * sizeof_Vec3f),
                    GL_STATIC_DRAW, HostPtr.vpoints_data⟩))
                env.normalbuffer
                (some ⟨(hostBytes (init env s).status HostPtr.vnormals_data).take
                    (env.sizeof_n_vertices * sizeof_Vec3f),
                  GL_STATIC_DRAW, HostPtr.vnormals_data⟩))
              env.trianglebuffer
              (some ⟨(hostBytes (init env s).status HostPtr.triangles_0).take
                  ((fill_triangles s.mesh).length * sizeof_unsigned_int),
                GL_STATIC_DRAW, HostPtr.triangles_0⟩),
          attribs :=
            Function.update
              (Function.update d.attribs VPOS
                ⟨true, env.vertexbuffer, 3, GL_FLOAT, NOT_NORMALIZED, ZERO_STRIDE,
                  ZERO_BUFFER_OFFSET⟩)
              VNOR
              ⟨true, env.normalbuffer, 3, GL_FLOAT, NOT_NORMALIZED, ZERO_STRIDE,
                ZERO_BUFFER_OFFSET⟩ } := by
  have hc : (init env s).calls
      = init_globals ++ init_camera env ++ init_varray env
          ++ init_buffers env (fill_triangles s.mesh) ++ init_attributes env := by
    rw [init_of_properties env s hp hn, if_neg hprog]
  rw [hc]
  exact device_after_init _ d env (fill_triangles s.mesh)

/-! ## C2: the vertex uploads -/

/-- C2, evaluated on a mesh with five vertices and `sizeof(mesh.n_vertices()) = 4`: `init` asks
for 48 bytes in each of the two vertex uploads, whereas the position and normal arrays hold
`12 * 5 = 60` bytes; the position buffer read back is 48 bytes long and differs from the host
array. -/
theorem init_vertex_uploads_take_48_of_60_bytes :
    uploads_to GL_ARRAY_BUFFER (init sampleEnv sampleStatus).calls
      = [(48, HostPtr.vpoints_data, GL_STATIC_DRAW),
         (48, HostPtr.vnormals_data, GL_STATIC_DRAW)] ∧
    sampleStatus.mesh.vertices_size = 5 ∧
    (hostBytes (init sampleEnv sampleStatus).status HostPtr.vpoints_data).length = 60 ∧
    (hostBytes (init sampleEnv sampleStatus).status HostPtr.vnormals_data).length = 60 ∧
    ((Device.run (hostBytes (init sampleEnv sampleStatus).status) Device.fresh
        (init sampleEnv sampleStatus).calls).buffers sampleEnv.vertexbuffer).map
      (fun b => (b.data.length,
        decide (b.data = hostBytes (init sampleEnv sampleStatus).status HostPtr.vpoints_data)))
      = some (48, false) := by
  refine ⟨by decide, by decide, by decide, by decide, by decide⟩

/-! ## C3: the index upload -/

/-- C3: for a triangulated mesh with `F` faces and a valid program, `init` makes exactly one
upload to the element-array target, of `4 * (3 * F)` bytes from the triangle sequence with the
static-draw hint, and the index buffer read back as 32-bit words is the triangle sequence. -/
theorem init_uploads_triangles (env : Env) (s : Status) (d : Device) (F : Nat)
    (hp : (s.mesh.get_vertex_property "v:point").isSome = true)
    (hn : (s.mesh.get_vertex_property "v:normal").isSome = true)
    (hprog : env.programID ≠ 0)
    (htri : s.mesh.is_triangle_mesh) (hF : s.mesh.faces.length = F) :
    (init env s).status.triangles.length = 3 * F ∧
    uploads_to GL_ELEMENT_ARRAY_BUFFER (init env s).calls
      = [(4 * (3 * F), HostPtr.triangles_0, GL_STATIC_DRAW)] ∧
    ∃ b : BufferObject,
      (Device.run (hostBytes (init env s).status) d (init env s).calls).buffers
          env.trianglebuffer = some b ∧
      b.source = HostPtr.triangles_0 ∧ b.usage = GL_STATIC_DRAW ∧
      b.data.length = 4 * (3 * F) ∧
      b.data = hostBytes (init env s).status HostPtr.triangles_0 ∧
      u32OfBytes b.data = (init env s).status.triangles := by
  have hlen : (fill_triangles s.mesh).length = 3 * F := by
    rw [fill_triangles_length s.mesh htri, hF]
  have htr := init_triangles env s hp hn
  have hbytes : (hostBytes (init env s).status HostPtr.triangles_0).length = 4 * (3 * F) := by
    simp only [hostBytes]
    rw [u32Bytes_flatten_length, htr, hlen]
    omega
  have htake : (hostBytes (init env s).status HostPtr.triangles_0).take
      ((fill_triangles s.mesh).length * sizeof_unsigned_int)
        = hostBytes (init env s).status HostPtr.triangles_0 := by
    apply List.take_of_length_le
    rw [hbytes, hlen]
    simp [sizeof_unsigned_int]
    omega
  refine ⟨by rw [htr, hlen], ?_, ?_⟩
  · rw [init_uploads_element env s hp hn hprog, hlen]
    simp [sizeof_unsigned_int]
    omega
  · refine ⟨⟨hostBytes (init env s).status HostPtr.triangles_0, GL_STATIC_DRAW,
      HostPtr.triangles_0⟩, ?_, rfl, rfl, hbytes, rfl, ?_⟩
    · rw [init_device env s d hp hn hprog]
      simp only [Function.update_same, htake]
    · simp only [hostBytes]
      rw [htr]
      exact u32OfBytes_flatten _ (fill_triangles_lt s.mesh)

/-- C3 at the sample mesh: two faces, 24 bytes of indices. -/
theorem init_uploads_triangles_witness :
    (init sampleEnv sampleStatus).status.triangles.length = 3 * 2 ∧
    uploads_to GL_ELEMENT_ARRAY_BUFFER (init sampleEnv sampleStatus).calls
      = [(4 * (3 * 2), HostPtr.triangles_0, GL_STATIC_DRAW)] ∧
    ∃ b : BufferObject,
      (Device.run (hostBytes (init sampleEnv sampleStatus).status) Device.fresh
          (init sampleEnv sampleStatus).calls).buffers sampleEnv.trianglebuffer = some b ∧
      b.source = HostPtr.triangles_0 ∧ b.usage = GL_STATIC_DRAW ∧
      b.data.length = 4 * (3 * 2) ∧
      b.data = hostBytes (init sampleEnv sampleStatus).status HostPtr.triangles_0 ∧
      u32OfBytes b.data = (init sampleEnv sampleStatus).status.triangles :=
  init_uploads_triangles sampleEnv sampleStatus Device.fresh 2 (by decide) (by decide)
    (by decide) (by unfold Surface_mesh.is_triangle_mesh; decide) (by decide)

/-! ## C4: the frame renderer -/

theorem toGLsizei_of_lt (n : Nat) (h : n < 2147483648) : toGLsizei n = Int.ofNat n := by
  have hm : n % 4294967296 = n := Nat.mod_eq_of_lt (by omega)
  rw [toGLsizei, hm, toGLint, if_pos h]
  rfl

theorem stripMesh_is_triangle_mesh (F : Nat) : (stripMesh F).is_triangle_mesh := by
  intro f hf
  simp only [stripMesh, List.mem_map] at hf
  obtain ⟨i, _, rfl⟩ := hf
  unfold stripFace
  split <;> rfl

theorem stripMesh_faces_length (F : Nat) : (stripMesh F).faces.length = F := by
  simp [stripMesh]

theorem stripMesh_has_point (F : Nat) :
    ((stripMesh F).get_vertex_property "v:point").isSome = true := by
  simp [stripMesh, Surface_mesh.get_vertex_property, List.lookup]

theorem stripMesh_has_normal (F : Nat) :
    ((stripMesh F).get_vertex_property "v:normal").isSome = true := by
  have hne : ("v:normal" == "v:point") = false := by decide
  simp [stripMesh, Surface_mesh.get_vertex_property, List.lookup, hne]

/-- C4 as stated fails on a large mesh: for the triangle strip with 715827883 faces `init`
returns with a triangle sequence of 2147483649 elements, and the draw call of `display` gets the
count -2147483647, the value of that size as a 32-bit signed `GLsizei`, not `3 * F`. -/
theorem display_count_wraps_on_large_mesh :
    (stripStatus 715827883).mesh.is_triangle_mesh ∧
    (stripStatus 715827883).mesh.faces.length = 715827883 ∧
    (init sampleEnv (stripStatus 715827883)).outcome = Outcome.returned ∧
    (init sampleEnv (stripStatus 715827883)).status.triangles.length = 3 * 715827883 ∧
    (display (init sampleEnv (stripStatus 715827883)).status).calls
      = [GLCall.glClear (GL_COLOR_BUFFER_BIT ||| GL_DEPTH_BUFFER_BIT),
         GLCall.glDrawElements GL_TRIANGLES (-2147483647) GL_UNSIGNED_INT 0] ∧
    (display_times 1 (init sampleEnv (stripStatus 715827883)).status).2
      ≠ (List.replicate 1
          [GLCall.glClear (GL_COLOR_BUFFER_BIT ||| GL_DEPTH_BUFFER_BIT),
           GLCall.glDrawElements GL_TRIANGLES (Int.ofNat (3 * 715827883))
             GL_UNSIGNED_INT 0]).flatten := by
  have hp := stripMesh_has_point 715827883
  have hn := stripMesh_has_normal 715827883
  have hprog : sampleEnv.programID ≠ 0 := by decide
  have hout : (init sampleEnv (stripStatus 715827883)).outcome = Outcome.returned := by
    rw [init_of_properties sampleEnv (stripStatus 715827883) hp hn, if_neg hprog]
  have hlen : (init sampleEnv (stripStatus 715827883)).status.triangles.length
      = 3 * 715827883 := by
    rw [init_triangles sampleEnv (stripStatus 715827883) hp hn]
    exact (fill_triangles_length (stripMesh 715827883)
      (stripMesh_is_triangle_mesh 715827883)).trans
      (congrArg (fun n => 3 * n) (stripMesh_faces_length 715827883))
  have hwrap : toGLsizei (3 * 715827883) = -2147483647 := by decide
  have hcalls : (display (init sampleEnv (stripStatus 715827883)).status).calls
      = [GLCall.glClear (GL_COLOR_BUFFER_BIT ||| GL_DEPTH_BUFFER_BIT),
         GLCall.glDrawElements GL_TRIANGLES (-2147483647) GL_UNSIGNED_INT 0] := by
    simp only [display, hlen, hwrap, ZERO_BUFFER_OFFSET]
  refine ⟨stripMesh_is_triangle_mesh 715827883, stripMesh_faces_length 715827883, hout, hlen,
    hcalls, ?_⟩
  intro h
  rw [display_times_calls, hcalls] at h
  simp only [List.replicate_succ, List.replicate_zero, List.flatten_cons, List.flatten_nil,
    List.append_nil, List.cons.injEq, GLCall.glDrawElements.injEq, and_true, true_and] at h
  have h2 : (-2147483647 : Int) ≠ Int.ofNat (3 * 715827883) := by decide
  exact h2 h

/-- C4, amended: after `init` on a triangulated mesh with `F` faces whose index count `3 * F`
fits the 32-bit signed `GLsizei` (`3 * F < 2^31`), `N` invocations of `display` issue exactly `N`
pairs (clear of colour and depth, indexed triangle draw of `3 * F` unsigned 32-bit indices at
offset zero), in that order and nothing else, and leave the viewer status, the triangle
sequence included, as `init` left it. -/
theorem display_issues_clear_draw_pairs (env : Env) (s : Status) (N F : Nat)
    (hp : (s.mesh.get_vertex_property "v:point").isSome = true)
    (hn : (s.mesh.get_vertex_property "v:normal").isSome = true)
    (htri : s.mesh.is_triangle_mesh) (hF : s.mesh.faces.length = F)
    (hfit : 3 * F < 2147483648) :
    (display_times N (init env s).status).2
      = (List.replicate N
          [GLCall.glClear (GL_COLOR_BUFFER_BIT ||| GL_DEPTH_BUFFER_BIT),
           GLCall.glDrawElements GL_TRIANGLES (Int.ofNat (3 * F)) GL_UNSIGNED_INT 0]).flatten ∧
    (display_times N (init env s).status).1 = (init env s).status ∧
    (display (init env s).status).status.triangles = (init env s).status.triangles := by
  have hlen : (init env s).status.triangles.length = 3 * F := by
    rw [init_triangles env s hp hn, fill_triangles_length s.mesh htri, hF]
  refine ⟨?_, display_times_status N _, rfl⟩
  rw [display_times_calls]
  simp only [display, hlen, toGLsizei_of_lt (3 * F) hfit, ZERO_BUFFER_OFFSET]

/-- C4, amended, at the sample mesh: five frames, six indices per draw. -/
theorem display_issues_clear_draw_pairs_witness :
    (display_times 5 (init sampleEnv sampleStatus).status).2
      = (List.replicate 5
          [GLCall.glClear (GL_COLOR_BUFFER_BIT ||| GL_DEPTH_BUFFER_BIT),
           GLCall.glDrawElements GL_TRIANGLES (Int.ofNat (3 * 2)) GL_UNSIGNED_INT 0]).flatten ∧
    (display_times 5 (init sampleEnv sampleStatus).status).1
      = (init sampleEnv sampleStatus).status ∧
    (display (init sampleEnv sampleStatus).status).status.triangles
      = (init sampleEnv sampleStatus).status.triangles :=
  display_issues_clear_draw_pairs sampleEnv sampleStatus 5 2 (by decide) (by decide)
    (by unfold Surface_mesh.is_triangle_mesh; decide) (by decide) (by decide)

/-! ## C5: a null program handle -/

/-- C5: when `load_shaders` returns 0, `init` ends the process with `EXIT_FAILURE` (a non-zero
code) after the three calls `glClearColor`, `glEnable`, `load_shaders`, none of which creates a
buffer, uploads buffer data, makes a program current or uploads a uniform; when it returns a
non-zero handle, `init` returns and its calls include the three buffer uploads. -/
theorem init_exits_on_null_program (env : Env) (s : Status)
    (hp : (s.mesh.get_vertex_property "v:point").isSome = true)
    (hn : (s.mesh.get_vertex_property "v:normal").isSome = true) :
    (env.programID = 0 →
      (init env s).outcome = Outcome.exited EXIT_FAILURE ∧ EXIT_FAILURE ≠ 0 ∧
      (init env s).calls
        = [GLCall.glClearColor 1 1 1 0, GLCall.glEnable GL_DEPTH_TEST,
           GLCall.load_shaders "vshader.glsl" "fshader.glsl"] ∧
      ∀ c ∈ (init env s).calls,
        c.is_glGenBuffers = false ∧ c.is_glBufferData = false ∧
        c.is_glUseProgram = false ∧ c.is_glUniform = false) ∧
    (env.programID ≠ 0 →
      (init env s).outcome = Outcome.returned ∧
      (init env s).calls
        = init_globals ++ init_camera env ++ init_varray env
            ++ init_buffers env (init env s).status.triangles ++ init_attributes env ∧
      (init env s).calls.countP GLCall.is_glBufferData = 3) := by
  constructor
  · intro h0
    rw [init_of_properties env s hp hn, if_pos h0]
    refine ⟨rfl, by decide, rfl, ?_⟩
    intro c hc
    simp only [init_globals, List.mem_cons, List.mem_singleton, List.not_mem_nil,
      or_false] at hc
    rcases hc with rfl | rfl | rfl <;> exact ⟨rfl, rfl, rfl, rfl⟩
  · intro h1
    rw [init_of_properties env s hp hn, if_neg h1]
    refine ⟨rfl, rfl, ?_⟩
    simp [init_globals, init_camera, init_varray, init_buffers, init_attributes,
      List.countP_cons, GLCall.is_glBufferData]

/-- C5 at the sample mesh, once with a failed loader and once with program 3. -/
theorem init_exits_on_null_program_witness :
    ((init failedEnv sampleStatus).outcome = Outcome.exited EXIT_FAILURE ∧ EXIT_FAILURE ≠ 0 ∧
      (init failedEnv sampleStatus).calls
        = [GLCall.glClearColor 1 1 1 0, GLCall.glEnable GL_DEPTH_TEST,
           GLCall.load_shaders "vshader.glsl" "fshader.glsl"] ∧
      ∀ c ∈ (init failedEnv sampleStatus).calls,
        c.is_glGenBuffers = false ∧ c.is_glBufferData = false ∧
        c.is_glUseProgram = false ∧ c.is_glUniform = false) ∧
    ((init sampleEnv sampleStatus).outcome = Outcome.returned ∧
      (init sampleEnv sampleStatus).calls
        = init_globals ++ init_camera sampleEnv ++ init_varray sampleEnv
            ++ init_buffers sampleEnv (init sampleEnv sampleStatus).status.triangles
            ++ init_attributes sampleEnv ∧
      (init sampleEnv sampleStatus).calls.countP GLCall.is_glBufferData = 3) :=
  ⟨(init_exits_on_null_program failedEnv sampleStatus (by decide) (by decide)).1 rfl,
   (init_exits_on_null_program sampleEnv sampleStatus (by decide) (by decide)).2 (by decide)⟩

/-! ## C7: the uniform upload -/

theorem toGLint_toUInt (i : Int) (h0 : -2147483648 ≤ i) (h1 : i < 2147483648) :
    toGLint (toUInt i) = i := by
  unfold toGLint toUInt
  have hm0 : 0 ≤ i % 4294967296 := Int.emod_nonneg _ (by decide)
  have hcast : (((i % 4294967296).toNat : Nat) : Int) = i % 4294967296 :=
    Int.toNat_of_nonneg hm0
  by_cases hneg : i < 0
  · have hm : i % 4294967296 = i + 4294967296 := by omega
    have hge : ¬ (i % 4294967296).toNat < 2147483648 := by omega
    rw [if_neg hge, hcast, hm]
    omega
  · have hm : i % 4294967296 = i := by omega
    have hlt : (i % 4294967296).toNat < 2147483648 := by omega
    rw [if_pos hlt, hcast, hm]

theorem display_times_no_uniform (n : Nat) (s : Status) :
    ∀ c ∈ (display_times n s).2, c.is_glUniform = false := by
  intro c hc
  rw [display_times_calls] at hc
  simp only [List.mem_flatten, List.mem_replicate] at hc
  obtain ⟨l, ⟨_, rfl⟩, hcl⟩ := hc
  simp only [display, List.mem_cons, List.mem_singleton, List.not_mem_nil, or_false] at hcl
  rcases hcl with rfl | rfl <;> rfl

/-- C7: whatever `GLint` the lookup of "MVP" returns, the invalid location -1 included, `init`
(with a valid program) returns normally; its calls hold exactly one uniform upload, at the
location the lookup returned and carrying `mvp`, which comes after `glUseProgram` and before any
buffer is created or filled and is followed by the whole rest of the setup; `display` uploads
no uniform, so `init` followed by any number of frames uploads the transform exactly once. -/
theorem init_uploads_uniform_once (env : Env) (s : Status) (N : Nat)
    (hp : (s.mesh.get_vertex_property "v:point").isSome = true)
    (hn : (s.mesh.get_vertex_property "v:normal").isSome = true)
    (hprog : env.programID ≠ 0)
    (hloc : -2147483648 ≤ env.uniformLocation ∧ env.uniformLocation < 2147483648) :
    (init env s).outcome = Outcome.returned ∧
    toGLint (toUInt env.uniformLocation) = env.uniformLocation ∧
    (∃ pre post : List GLCall,
      (init env s).calls
        = pre ++ GLCall.glUniform (toUInt env.uniformLocation) (mvp env) :: post ∧
      GLCall.glUseProgram env.programID ∈ pre ∧
      (∀ c ∈ pre, c.is_glUniform = false ∧ c.is_glGenBuffers = false ∧
        c.is_glBufferData = false) ∧
      (∀ c ∈ post, c.is_glUniform = false) ∧
      post = init_varray env ++ init_buffers env (init env s).status.triangles
        ++ init_attributes env) ∧
    (∀ c ∈ (display_times N (init env s).status).2, c.is_glUniform = false) ∧
    ((init env s).calls ++ (display_times N (init env s).status).2).countP
      GLCall.is_glUniform = 1 := by
  have hcalls : (init env s).calls
      = init_globals ++ init_camera env ++ init_varray env
          ++ init_buffers env (fill_triangles s.mesh) ++ init_attributes env := by
    rw [init_of_properties env s hp hn, if_neg hprog]
  have hout : (init env s).outcome = Outcome.returned := by
    rw [init_of_properties env s hp hn, if_neg hprog]
  have htr := init_triangles env s hp hn
  have hdisp := display_times_no_uniform N (init env s).status
  refine ⟨hout, toGLint_toUInt _ hloc.1 hloc.2, ?_, hdisp, ?_⟩
  · refine ⟨init_globals ++ [GLCall.glUseProgram env.programID,
        GLCall.glGetUniformLocation env.programID "MVP"],
      init_varray env ++ init_buffers env (fill_triangles s.mesh) ++ init_attributes env,
      ?_, ?_, ?_, ?_, ?_⟩
    · rw [hcalls]
      simp [init_camera]
    · simp
    · intro c hc
      simp only [init_globals, List.cons_append, List.nil_append, List.mem_cons,
        List.mem_singleton, List.not_mem_nil, or_false] at hc
      rcases hc with rfl | rfl | rfl | rfl | rfl <;> exact ⟨rfl, rfl, rfl⟩
    · intro c hc
      simp only [init_varray, init_buffers, init_attributes, List.cons_append,
        List.nil_append, List.mem_cons, List.mem_singleton, List.not_mem_nil,
        or_false] at hc
      rcases hc with rfl | rfl | rfl | rfl | rfl | rfl | rfl | rfl | rfl | rfl | rfl | rfl
        | rfl | rfl | rfl | rfl | rfl | rfl <;> rfl
    · rw [htr]
  · rw [List.countP_append]
    have h2 : (display_times N (init env s).status).2.countP GLCall.is_glUniform = 0 := by
      rw [List.countP_eq_zero]
      intro c hc
      simp [hdisp c hc]
    rw [h2, hcalls]
    simp [init_globals, init_camera, init_varray, init_buffers, init_attributes,
      List.countP_cons, GLCall.is_glUniform]

/-- C7 at the sample mesh with the lookup returning the invalid location -1, five frames. -/
theorem init_uploads_uniform_once_witness :
    (init notFoundEnv sampleStatus).outcome = Outcome.returned ∧
    toGLint (toUInt notFoundEnv.uniformLocation) = notFoundEnv.uniformLocation ∧
    (∃ pre post : List GLCall,
      (init notFoundEnv sampleStatus).calls
        = pre ++ GLCall.glUniform (toUInt notFoundEnv.uniformLocation) (mvp notFoundEnv)
            :: post ∧
      GLCall.glUseProgram notFoundEnv.programID ∈ pre ∧
      (∀ c ∈ pre, c.is_glUniform = false ∧ c.is_glGenBuffers = false ∧
        c.is_glBufferData = false) ∧
      (∀ c ∈ post, c.is_glUniform = false) ∧
      post = init_varray notFoundEnv
        ++ init_buffers notFoundEnv (init notFoundEnv sampleStatus).status.triangles
        ++ init_attributes notFoundEnv) ∧
    (∀ c ∈ (display_times 5 (init notFoundEnv sampleStatus).status).2,
      c.is_glUniform = false) ∧
    ((init notFoundEnv sampleStatus).calls
        ++ (display_times 5 (init notFoundEnv sampleStatus).status).2).countP
      GLCall.is_glUniform = 1 :=
  init_uploads_uniform_once notFoundEnv sampleStatus 5 (by decide) (by decide) (by decide)
    (by decide)

/-! ## C9: attribute and element-array bindings -/

/-- C9: after `init` with a valid program and three distinct buffer names, on any device,
attribute 0 is enabled and reads the buffer `vertexbuffer`, attribute 1 is enabled and reads the
buffer `normalbuffer`, each with 3 `GL_FLOAT` components, not normalized, stride 0, offset 0;
the element-array binding is `trianglebuffer` and no frame changes it; and the data stores of
the three names were filled from the position, the normal and the triangle array. -/
theorem init_binds_attributes (env : Env) (s : Status) (d : Device) (N : Nat)
    (hp : (s.mesh.get_vertex_property "v:point").isSome = true)
    (hn : (s.mesh.get_vertex_property "v:normal").isSome = true)
    (hprog : env.programID ≠ 0)
    (hvn : env.vertexbuffer ≠ env.normalbuffer)
    (hvt : env.vertexbuffer ≠ env.trianglebuffer)
    (hnt : env.normalbuffer ≠ env.trianglebuffer) :
    (init env s).outcome = Outcome.returned ∧
    (Device.run (hostBytes (init env s).status) d (init env s).calls).attribs 0
      = ⟨true, env.vertexbuffer, 3, GL_FLOAT, 0, 0, 0⟩ ∧
    (Device.run (hostBytes (init env s).status) d (init env s).calls).attribs 1
      = ⟨true, env.normalbuffer, 3, GL_FLOAT, 0, 0, 0⟩ ∧
    (Device.run (hostBytes (init env s).status) d (init env s).calls).element_array_buffer
      = env.trianglebuffer ∧
    (Device.run (hostBytes (init env s).status)
        (Device.run (hostBytes (init env s).status) d (init env s).calls)
        (display_times N (init env s).status).2).element_array_buffer
      = env.trianglebuffer ∧
    ((Device.run (hostBytes (init env s).status) d (init env s).calls).buffers
        env.vertexbuffer).map BufferObject.source = some HostPtr.vpoints_data ∧
    ((Device.run (hostBytes (init env s).status) d (init env s).calls).buffers
        env.normalbuffer).map BufferObject.source = some HostPtr.vnormals_data ∧
    ((Device.run (hostBytes (init env s).status) d (init env s).calls).buffers
        env.trianglebuffer).map BufferObject.source = some HostPtr.triangles_0 := by
  have hout : (init env s).outcome = Outcome.returned := by
    rw [init_of_properties env s hp hn, if_neg hprog]
  have h01 : (0 : Nat) ≠ 1 := by decide
  rw [device_run_display_times, init_device env s d hp hn hprog]
  refine ⟨hout, ?_, ?_, rfl, rfl, ?_, ?_, ?_⟩
  · simp [VPOS, VNOR, NOT_NORMALIZED, ZERO_STRIDE, ZERO_BUFFER_OFFSET,
      Function.update_noteq h01]
  · simp [VPOS, VNOR, NOT_NORMALIZED, ZERO_STRIDE, ZERO_BUFFER_OFFSET]
  · simp [Function.update_noteq hvt, Function.update_noteq hvn]
  · simp [Function.update_noteq hnt]
  · simp

/-- C9 at the sample mesh on a fresh device, buffers named 1, 2, 3, five frames. -/
theorem init_binds_attributes_witness :
    (init sampleEnv sampleStatus).outcome = Outcome.returned ∧
    (Device.run (hostBytes (init sampleEnv sampleStatus).status) Device.fresh
        (init sampleEnv sampleStatus).calls).attribs 0
      = ⟨true, sampleEnv.vertexbuffer, 3, GL_FLOAT, 0, 0, 0⟩ ∧
    (Device.run (hostBytes (init sampleEnv sampleStatus).status) Device.fresh
        (init sampleEnv sampleStatus).calls).attribs 1
      = ⟨true, sampleEnv.normalbuffer, 3, GL_FLOAT, 0, 0, 0⟩ ∧
    (Device.run (hostBytes (init sampleEnv sampleStatus).status) Device.fresh
        (init sampleEnv sampleStatus).calls).element_array_buffer
      = sampleEnv.trianglebuffer ∧
    (Device.run (hostBytes (init sampleEnv sampleStatus).status)
        (Device.run (hostBytes (init sampleEnv sampleStatus).status) Device.fresh
          (init sampleEnv sampleStatus).calls)
        (display_times 5 (init sampleEnv sampleStatus).status).2).element_array_buffer
      = sampleEnv.trianglebuffer ∧
    ((Device.run (hostBytes (init sampleEnv sampleStatus).status) Device.fresh
        (init sampleEnv sampleStatus).calls).buffers
        sampleEnv.vertexbuffer).map BufferObject.source = some HostPtr.vpoints_data ∧
    ((Device.run (hostBytes (init sampleEnv sampleStatus).status) Device.fresh
        (init sampleEnv sampleStatus).calls).buffers
        sampleEnv.normalbuffer).map BufferObject.source = some HostPtr.vnormals_data ∧
    ((Device.run (hostBytes (init sampleEnv sampleStatus).status) Device.fresh
        (init sampleEnv sampleStatus).calls).buffers
        sampleEnv.trianglebuffer).map BufferObject.source = some HostPtr.triangles_0 :=
  init_binds_attributes sampleEnv sampleStatus Device.fresh 5 (by decide) (by decide)
    (by decide) (by decide) (by decide) (by decide)

/-! ## C6: the entry point -/

theorem run_frames_display (n : Nat) (s : Status) :
    run_frames display n s
      = ⟨(display_times n s).1, (display_times n s).2, Outcome.returned⟩ := by
  induction n with
  | zero => rfl
  | succ n ih =>
      have hs : (display s).status = s := rfl
      have ho : (display s).outcome = Outcome.returned := rfl
      simp only [run_frames, display_times, ho, hs, ih]

theorem window_of_returned (env : Env) (frames : Nat) (s : Status)
    (h : (init env s).outcome = Outcome.returned) :
    simple_glfw_window (init env) display frames s
      = ⟨(init env s).status,
         (init env s).calls ++ (display_times frames (init env s).status).2,
         Outcome.returned⟩ := by
  simp only [simple_glfw_window, h, run_frames_display, display_times_status]

theorem window_of_not_returned (env : Env) (frames : Nat) (s : Status)
    (h : (init env s).outcome ≠ Outcome.returned) :
    simple_glfw_window (init env) display frames s
      = ⟨(init env s).status, (init env s).calls, (init env s).outcome⟩ := by
  cases ho : (init env s).outcome with
  | returned => exact absurd ho h
  | exited c => simp only [simple_glfw_window, ho]
  | aborted => simp only [simple_glfw_window, ho]

/-- C6 as stated fails on one-argument-short input: with `argc = 1`, `main` prints nothing and
is aborted by the assertion; it does not end with a non-zero exit code. -/
theorem main_without_argument_aborts :
    (main sampleLib sampleEnv 5 1 ["viewer"] sampleStatus).outcome = Outcome.aborted ∧
    (main sampleLib sampleEnv 5 1 ["viewer"] sampleStatus).events = [] ∧
    ¬ ∃ code : Nat, code ≠ 0 ∧
      (main sampleLib sampleEnv 5 1 ["viewer"] sampleStatus).outcome
        = Outcome.exited code := by
  have h1 : (main sampleLib sampleEnv 5 1 ["viewer"] sampleStatus).outcome
      = Outcome.aborted := by decide
  refine ⟨h1, by decide, ?_⟩
  rintro ⟨code, _, h⟩
  rw [h1] at h
  cases h

/-- C6, amended: for `argc ≠ 2` the assertion `argc==2` fails and `main` is aborted, with no
output, no exit code and no call to the mesh, the window or the device, the status untouched;
for `argc = 2` it calls mesh read on `argv[1]`, triangulate and update_vertex_normals in that
order, prints the two lines and starts the window with `init` and `display` as callbacks: the
window runs `init` on the mesh just prepared and, when `init` returns, `display` once per
frame, after which `main` returns `EXIT_SUCCESS`; when `init` ends the process, `main` ends as
`init` did. -/
theorem main_asserts_argument_count (lib : MeshLib) (env : Env) (frames : Nat) (argc : Int)
    (argv : List String) (s : Status) :
    (argc ≠ 2 →
      (main lib env frames argc argv s).outcome = Outcome.aborted ∧
      (main lib env frames argc argv s).events = [] ∧
      (main lib env frames argc argv s).calls = [] ∧
      (main lib env frames argc argv s).status = s) ∧
    (argc = 2 →
      (main lib env frames argc argv s).events
        = [Event.mesh_read (argv.getD 1 ""),
           Event.mesh_triangulate,
           Event.mesh_update_vertex_normals,
           Event.cout_input (argv.getD 1 "")
             (lib.update_vertex_normals
               (lib.triangulate (lib.read s.mesh (argv.getD 1 "")))).vertices_size,
           Event.cout_bbox,
           Event.simple_glfw_window "mesh viewer" 640 480 Callback.init Callback.display] ∧
      (load_mesh lib (argv.getD 1 "") s).mesh
        = lib.update_vertex_normals (lib.triangulate (lib.read s.mesh (argv.getD 1 ""))) ∧
      (load_mesh lib (argv.getD 1 "") s).triangles = s.triangles ∧
      ((init env (load_mesh lib (argv.getD 1 "") s)).outcome = Outcome.returned →
        (main lib env frames argc argv s).calls
          = (init env (load_mesh lib (argv.getD 1 "") s)).calls
            ++ (display_times frames
                (init env (load_mesh lib (argv.getD 1 "") s)).status).2 ∧
        (main lib env frames argc argv s).status
          = (init env (load_mesh lib (argv.getD 1 "") s)).status ∧
        (main lib env frames argc argv s).outcome = Outcome.exited EXIT_SUCCESS) ∧
      ((init env (load_mesh lib (argv.getD 1 "") s)).outcome ≠ Outcome.returned →
        (main lib env frames argc argv s).calls
          = (init env (load_mesh lib (argv.getD 1 "") s)).calls ∧
        (main lib env frames argc argv s).status
          = (init env (load_mesh lib (argv.getD 1 "") s)).status ∧
        (main lib env frames argc argv s).outcome
          = (init env (load_mesh lib (argv.getD 1 "") s)).outcome)) := by
  constructor
  · intro h
    simp [main, h]
  · intro h
    refine ⟨by simp [main, h, load_mesh], rfl, rfl, ?_, ?_⟩
    · intro hret
      have hw := window_of_returned env frames (load_mesh lib (argv.getD 1 "") s) hret
      simp only [main, h, if_true, hw, and_self]
    · intro hnot
      have hw := window_of_not_returned env frames (load_mesh lib (argv.getD 1 "") s) hnot
      cases ho : (init env (load_mesh lib (argv.getD 1 "") s)).outcome with
      | returned => exact absurd ho hnot
      | exited c =>
          rw [ho] at hw
          simp only [main, h, if_true, hw, and_self]
      | aborted =>
          rw [ho] at hw
          simp only [main, h, if_true, hw, and_self]

/-- C6, amended, at `argc = 3`, and at `argc = 2` with the path `bunny.obj`, five frames, once
with a valid program and once with a failed shader loader. -/
theorem main_asserts_argument_count_witness :
    ((main sampleLib sampleEnv 5 3 ["viewer", "a.obj", "b.obj"] sampleStatus).outcome
        = Outcome.aborted ∧
      (main sampleLib sampleEnv 5 3 ["viewer", "a.obj", "b.obj"] sampleStatus).events = [] ∧
      (main sampleLib sampleEnv 5 3 ["viewer", "a.obj", "b.obj"] sampleStatus).calls = [] ∧
      (main sampleLib sampleEnv 5 3 ["viewer", "a.obj", "b.obj"] sampleStatus).status
        = sampleStatus) ∧
    (main sampleLib sampleEnv 5 2 ["viewer", "bunny.obj"] sampleStatus).events
        = [Event.mesh_read (["viewer", "bunny.obj"].getD 1 ""),
           Event.mesh_triangulate,
           Event.mesh_update_vertex_normals,
           Event.cout_input (["viewer", "bunny.obj"].getD 1 "")
             (sampleLib.update_vertex_normals (sampleLib.triangulate
               (sampleLib.read sampleStatus.mesh
                 (["viewer", "bunny.obj"].getD 1 "")))).vertices_size,
           Event.cout_bbox,
           Event.simple_glfw_window "mesh viewer" 640 480 Callback.init Callback.display] ∧
    ((main sampleLib sampleEnv 5 2 ["viewer", "bunny.obj"] sampleStatus).calls
        = (init sampleEnv
            (load_mesh sampleLib (["viewer", "bunny.obj"].getD 1 "") sampleStatus)).calls
          ++ (display_times 5 (init sampleEnv
              (load_mesh sampleLib (["viewer", "bunny.obj"].getD 1 "")
                sampleStatus)).status).2 ∧
      (main sampleLib sampleEnv 5 2 ["viewer", "bunny.obj"] sampleStatus).status
        = (init sampleEnv
            (load_mesh sampleLib (["viewer", "bunny.obj"].getD 1 "") sampleStatus)).status ∧
      (main sampleLib sampleEnv 5 2 ["viewer", "bunny.obj"] sampleStatus).outcome
        = Outcome.exited EXIT_SUCCESS) ∧
    ((main sampleLib failedEnv 5 2 ["viewer", "bunny.obj"] sampleStatus).calls
        = (init failedEnv
            (load_mesh sampleLib (["viewer", "bunny.obj"].getD 1 "") sampleStatus)).calls ∧
      (main sampleLib failedEnv 5 2 ["viewer", "bunny.obj"] sampleStatus).status
        = (init failedEnv
            (load_mesh sampleLib (["viewer", "bunny.obj"].getD 1 "") sampleStatus)).status ∧
      (main sampleLib failedEnv 5 2 ["viewer", "bunny.obj"] sampleStatus).outcome
        = (init failedEnv
            (load_mesh sampleLib (["viewer", "bunny.obj"].getD 1 "")
              sampleStatus)).outcome) :=
  ⟨(main_asserts_argument_count sampleLib sampleEnv 5 3 ["viewer", "a.obj", "b.obj"]
      sampleStatus).1 (by decide),
   ((main_asserts_argument_count sampleLib sampleEnv 5 2 ["viewer", "bunny.obj"]
      sampleStatus).2 rfl).1,
   ((main_asserts_argument_count sampleLib sampleEnv 5 2 ["viewer", "bunny.obj"]
      sampleStatus).2 rfl).2.2.2.1 (by decide),
   ((main_asserts_argument_count sampleLib failedEnv 5 2 ["viewer", "bunny.obj"]
      sampleStatus).2 rfl).2.2.2.2 (by decide)⟩

/-! ## The `float` constants of the projection -/

theorem float_4_div_3_nearest :
    float_4_div_3 = 11184811 / 2 ^ 23 ∧ (2 : ℚ) ^ 23 ≤ 11184811 ∧ (11184811 : ℚ) < 2 ^ 24 ∧
    |4 / 3 - float_4_div_3| < 1 / 2 ^ 24 := by
  refine ⟨by norm_num [float_4_div_3], by norm_num, by norm_num, ?_⟩
  rw [abs_lt]
  constructor <;> norm_num [float_4_div_3]

theorem float_0_1_nearest :
    float_0_1 = 13421773 / 2 ^ 27 ∧ (2 : ℚ) ^ 23 ≤ 13421773 ∧ (13421773 : ℚ) < 2 ^ 24 ∧
    |1 / 10 - float_0_1| < 1 / 2 ^ 28 := by
  refine ⟨by norm_num [float_0_1], by norm_num, by norm_num, ?_⟩
  rw [abs_lt]
  constructor <;> norm_num [float_0_1]

/-! ## C10: the view matrix -/

theorem isqrt_36 : Eigen.isqrt 36 = 6 := by decide

theorem isqrt_1 : Eigen.isqrt 1 = 1 := by decide

theorem sqrt_36 : Eigen.sqrt 36 = 6 := by
  have h1 : (36 : ℚ).num.toNat = 36 := by rw [Rat.num_ofNat]; rfl
  have h2 : (36 : ℚ).den = 1 := by norm_num
  rw [Eigen.sqrt, h1, h2, isqrt_36, isqrt_1]
  norm_num

theorem sqrt_1 : Eigen.sqrt 1 = 1 := by
  have h1 : (1 : ℚ).num.toNat = 1 := by norm_num
  have h2 : (1 : ℚ).den = 1 := by norm_num
  rw [Eigen.sqrt, h1, h2, isqrt_1]
  norm_num

theorem forward_of_target : Eigen.normalized (fun i => cam_look i - cam_pos i) = ![0, 0, -1] := by
  have hd : Eigen.dot (fun i => cam_look i - cam_pos i) (fun i => cam_look i - cam_pos i)
      = 36 := by
    norm_num [Eigen.dot, cam_look, cam_pos]
  funext i
  rw [Eigen.normalized, hd, sqrt_36]
  fin_cases i <;> norm_num [cam_look, cam_pos]

theorem forward_of_direction : Eigen.normalized cam_look = ![0, 0, -1] := by
  have hd : Eigen.dot cam_look cam_look = 1 := by
    norm_num [Eigen.dot, cam_look]
  funext i
  rw [Eigen.normalized, hd, sqrt_1]
  fin_cases i <;> norm_num [cam_look]

theorem up_normalized : Eigen.normalized cam_up = ![0, 1, 0] := by
  have hd : Eigen.dot cam_up cam_up = 1 := by
    norm_num [Eigen.dot, cam_up]
  funext i
  rw [Eigen.normalized, hd, sqrt_1]
  fin_cases i <;> norm_num [cam_up]

theorem side_normalized :
    Eigen.normalized (Eigen.cross ![0, 0, -1] ![0, 1, 0]) = ![1, 0, 0] := by
  have hc : Eigen.cross ![0, 0, -1] ![0, 1, 0] = ![1, 0, 0] := by
    funext i
    fin_cases i <;> norm_num [Eigen.cross]
  have hd : Eigen.dot ![1, 0, 0] ![1, 0, 0] = 1 := by
    norm_num [Eigen.dot]
  funext i
  rw [hc, Eigen.normalized, hd, sqrt_1]
  fin_cases i <;> norm_num

theorem lookAlong_fixed :
    Eigen.lookAlong cam_pos ![0, 0, -1] cam_up = Eigen.translate 0 0 (-5) := by
  unfold Eigen.lookAlong
  simp only [up_normalized, side_normalized]
  ext i j
  fin_cases i <;> fin_cases j <;>
    norm_num [Eigen.cross, Eigen.dot, Eigen.translate, cam_pos]

/-- C10: for eye `(0,0,5)`, look `(0,0,-1)`, up `(0,1,0)` the look-at matrix `view` is the pure
translation by `(0,0,-5)`, sending `(x,y,z,1)` to `(x,y,z-5,1)`, and reading the look parameter
as a target point or as a view direction gives the same matrix. -/
theorem view_is_translation (x y z : ℚ) :
    view = Eigen.lookAt ![0, 0, 5] ![0, 0, -1] ![0, 1, 0] ∧
    view = Eigen.translate 0 0 (-5) ∧
    view.mulVec ![x, y, z, 1] = ![x, y, z - 5, 1] ∧
    Eigen.lookAtDirection ![0, 0, 5] ![0, 0, -1] ![0, 1, 0]
      = Eigen.lookAt ![0, 0, 5] ![0, 0, -1] ![0, 1, 0] := by
  have hv : view = Eigen.translate 0 0 (-5) := by
    rw [view, Eigen.lookAt, forward_of_target, lookAlong_fixed]
  have hd : Eigen.lookAtDirection cam_pos cam_look cam_up = Eigen.translate 0 0 (-5) := by
    rw [Eigen.lookAtDirection, forward_of_direction, lookAlong_fixed]
  refine ⟨rfl, hv, ?_, ?_⟩
  · rw [hv]
    funext i
    fin_cases i <;>
      simp [Eigen.translate, Matrix.mulVec, Matrix.dotProduct, Fin.sum_univ_four]
    all_goals ring
  · have hl : Eigen.lookAt ![0, 0, 5] ![0, 0, -1] ![0, 1, 0] = view := rfl
    have hl2 : Eigen.lookAtDirection ![0, 0, 5] ![0, 0, -1] ![0, 1, 0]
        = Eigen.lookAtDirection cam_pos cam_look cam_up := rfl
    rw [hl, hl2, hd, hv]

end SurfaceMeshViewer
